import Mathlib

/-!
Shallow embedding of the vrrp-rs core (src/router.rs, src/actions.rs,
src/interval.rs, src/mode.rs, src/parameters.rs, src/received.rs,
src/addresses.rs) in Lean 4, with theorems settling the frozen claims
about the VRRP v3 state machine.

Machine integers are modelled as `Nat` with an explicit `% 65536` where the
source performs `u16` arithmetic (src/interval.rs wraps a `u16`).  An
`Instant` is a count of milliseconds; adding an `Interval` adds
`10 * centiseconds` milliseconds, mirroring `Duration::from_millis(v * 10)`.
IPv4 addresses are modelled by their 32-bit network-byte-order value, so the
`Ord` instance of `Ipv4Addr` (octet-lexicographic) coincides with `Nat`
order.
-/

namespace Vrrp

abbrev Instant := Nat

abbrev Ipv4 := Nat

/-- MacAddr as in pnet_base: six octets. -/
structure MacAddr where
  b0 : Nat
  b1 : Nat
  b2 : Nat
  b3 : Nat
  b4 : Nat
  b5 : Nat
deriving DecidableEq, Repr

/-- Interval (src/interval.rs): a `u16` count of centiseconds. -/
structure Interval where
  val : Nat
deriving DecidableEq, Repr

/-- impl Add<Interval> for Interval: `Interval(self.0 + rhs.0)` on u16. -/
def Interval.add (a b : Interval) : Interval := ⟨(a.val + b.val) % 65536⟩

/-- impl Mul<Interval> for u16: `Interval(self * rhs.0)` on u16. -/
def Interval.scale (k : Nat) (a : Interval) : Interval := ⟨(k * a.val) % 65536⟩

/-- impl Div<u16> for Interval: `Interval(self.0 / rhs)`. -/
def Interval.divBy (a : Interval) (k : Nat) : Interval := ⟨a.val / k⟩

/-- Interval::from_centis. -/
def Interval.from_centis (c : Nat) : Interval := ⟨c % 65536⟩

/-- impl Add<Interval> for Instant, via `Duration::from_millis(self.0 * 10)`. -/
def Instant.addInterval (t : Instant) (i : Interval) : Instant := t + 10 * i.val

/-- BackupMode (src/mode.rs).  `priority` is the configured `Priority`
(1..=254, protocol default 100), modelled as a `Nat`. -/
structure BackupMode where
  primary_ip : Ipv4
  priority : Nat
  preempt : Bool
  accept : Bool
deriving DecidableEq, Repr

/-- Mode (src/mode.rs). -/
inductive Mode where
  | owner
  | backup (bm : BackupMode)
deriving DecidableEq, Repr

/-- Mode::priority (src/mode.rs): `NonZeroU8::MAX` (= 255) for Owner. -/
def Mode.priority : Mode → Nat
  | .owner => 255
  | .backup bm => bm.priority

/-- Mode::should_accept (src/mode.rs). -/
def Mode.should_accept : Mode → Bool
  | .owner => true
  | .backup bm => bm.accept

/-- Mode::should_preempt (src/mode.rs). -/
def Mode.should_preempt : Mode → Bool
  | .owner => true
  | .backup bm => bm.preempt

/-- Modelled from the spec: the `Parameters` revision that `src/router.rs`
and the tests in `src/lib.rs` compile against (fields `vrid`,
`virtual_addresses`, `advertisement_interval`, `mode`) is absent from
src/parameters.rs, which holds an older revision; the shape follows spec
sections 3 and 4.1 and the construction in the in-repo tests. -/
structure Parameters where
  vrid : Nat
  virtual_addresses : List Ipv4
  advertisement_interval : Interval
  mode : Mode
deriving DecidableEq, Repr

/-- Effective priority of this router: `parameters.mode.priority()` as used
by src/router.rs. -/
def Parameters.priority (p : Parameters) : Nat := p.mode.priority

/-- Parameters::mac_address (src/parameters.rs, also VRID::into_mac_address
in src/vrid.rs): `00:00:5E:00:01:{VRID}`. -/
def Parameters.macAddress (p : Parameters) : MacAddr := ⟨0, 0, 0x5E, 0, 1, p.vrid⟩

/-- Parameters::skew_time (src/parameters.rs lines 44-46):
`((256 - priority) * interval) / 256` on the u16 `Interval` arithmetic of
src/interval.rs. -/
def Parameters.skew_time (p : Parameters) (i : Interval) : Interval :=
  (Interval.scale (256 - p.priority) i).divBy 256

/-- Parameters::active_down_interval: `3 * interval + skew_time(interval)`
(src/parameters.rs `master_down_interval`, same formula under the older
name; called `active_down_interval` by src/router.rs and src/lib.rs). -/
def Parameters.active_down_interval (p : Parameters) (i : Interval) : Interval :=
  (Interval.scale 3 i).add (p.skew_time i)

/-- Modelled from the spec: `Parameters::primary_ip()` is called by
src/router.rs but defined in no file under src/.  Spec section 8
scenario 5 (self primary_ip is `1.1.1.1`, the first virtual address, while
the configured Backup `primary_ip` is `42.42.42.42`), the in-repo test
`active_receives_greater_priority_advertisement`, and the otherwise unused
`VirtualAddresses::first` (src/addresses.rs) all show it returns the first
virtual address. -/
def Parameters.primary_ip (p : Parameters) : Ipv4 :=
  p.virtual_addresses.headD 0

/-- RoutePacket (src/actions.rs). -/
inductive RoutePacket where
  | reject
  | accept
  | forward
deriving DecidableEq, Repr

/-- SendPacket, semantically: the advertisement carries the priority and
interval the embedder encodes (spec section 6).  src/actions.rs builds
`Advertisement(parameters.priority, parameters.advertisement_interval)` and
`Advertisement(Priority::SHUTDOWN = 0, parameters.advertisement_interval)`;
src/send.rs carries `&Parameters`, which section 6 fixes to the same
encoding. -/
inductive SendPacket where
  | advertisement (priority : Nat) (interval : Interval)
  | gratuitousARP (sender_mac : MacAddr) (sender_ip : Ipv4)
  | replyARP (sender_mac : MacAddr) (sender_ip : Ipv4) (target_mac : MacAddr) (target_ip : Ipv4)
deriving DecidableEq, Repr

/-- Action (src/actions.rs). -/
inductive Action where
  | activate
  | deactivate
  | send (p : SendPacket)
  | route (r : RoutePacket)
deriving DecidableEq, Repr

/-- TransitionToActive iterator state (src/actions.rs lines 86-92); the
`NextARP` offset is a `u8` in the source, kept in 0..=255 by the guard. -/
inductive TransitionToActive where
  | activate
  | advertisment
  | nextARP (offset : Nat)
deriving DecidableEq, Repr

/-- ShutdownActive iterator state (src/actions.rs lines 124-130). -/
inductive ShutdownActive where
  | advertisment
  | deactivate
  | done
deriving DecidableEq, Repr

/-- Actions (src/actions.rs lines 47-53).  The Rust value borrows
`&Parameters`; here the parameters are carried by value. -/
inductive Actions where
  | transitionToActive (p : Parameters) (s : TransitionToActive)
  | shutdownActive (p : Parameters) (s : ShutdownActive)
  | oneAction (a : Option Action)
  | none
deriving DecidableEq, Repr

/-- TransitionToActive::next_action (src/actions.rs lines 94-122).
The guard is the source's `offset <= u8::MAX && offset < len as u8`:
`len as u8` truncates to `len % 256`, and `ipv4_addresses[offset]` is
`getD` (the guard keeps it in bounds). -/
def TransitionToActive.next_action :
    TransitionToActive → Parameters → Option (Action × TransitionToActive)
  | .activate, _ => some (.activate, .advertisment)
  | .advertisment, p =>
      some (.send (.advertisement p.priority p.advertisement_interval), .nextARP 0)
  | .nextARP offset, p =>
      if offset ≤ 255 ∧ offset < p.virtual_addresses.length % 256 then
        some (.send (.gratuitousARP p.macAddress (p.virtual_addresses.getD offset 0)),
          .nextARP (offset + 1))
      else
        Option.none

/-- ShutdownActive::next_action (src/actions.rs lines 132-152); the
advertisement carries `Priority::SHUTDOWN` (= 0). -/
def ShutdownActive.next_action :
    ShutdownActive → Parameters → Option (Action × ShutdownActive)
  | .advertisment, p =>
      some (.send (.advertisement 0 p.advertisement_interval), .deactivate)
  | .deactivate, _ => some (.deactivate, .done)
  | .done, _ => Option.none

/-- Iterator::next for Actions (src/actions.rs lines 73-84), re-wrapping the
stepped iterator state. -/
def Actions.next : Actions → Option (Action × Actions)
  | .none => Option.none
  | .shutdownActive p s =>
      match s.next_action p with
      | some (a, s') => some (a, .shutdownActive p s')
      | Option.none => Option.none
  | .transitionToActive p s =>
      match s.next_action p with
      | some (a, s') => some (a, .transitionToActive p s')
      | Option.none => Option.none
  | .oneAction a =>
      match a with
      | some x => some (x, .oneAction Option.none)
      | Option.none => Option.none

/-- Drain the iterator for at most `fuel` steps. -/
def Actions.toListFuel : Nat → Actions → List Action
  | 0, _ => []
  | fuel + 1, acts =>
      match acts.next with
      | Option.none => []
      | some (a, rest) => a :: Actions.toListFuel fuel rest

/-- Fuel sufficient to drain any Actions value: a TransitionToActive emits at
most `2 + len % 256 ≤ 2 + len` actions, a ShutdownActive at most 2. -/
def Actions.fuelOf : Actions → Nat
  | .transitionToActive p _ => p.virtual_addresses.length + 3
  | .shutdownActive _ _ => 3
  | .oneAction _ => 1
  | .none => 0

/-- The whole action stream, as the embedder collects it. -/
def Actions.toList (a : Actions) : List Action := Actions.toListFuel a.fuelOf a

/-- ReceivedPacket (src/received.rs, the revision src/router.rs matches on). -/
inductive ReceivedPacket where
  | shutdownAdvertisement (max_advertise_interval : Interval)
  | advertisement (sender_ip : Ipv4) (priority : Nat) (max_advertise_interval : Interval)
  | requestARP (sender_mac : MacAddr) (sender_ip : Ipv4) (target_ip : Ipv4)
  | ip (target_mac : MacAddr) (target_ip : Ipv4)
deriving DecidableEq, Repr

/-- Command (src/input.rs). -/
inductive Command where
  | startup
  | shutdown
deriving DecidableEq, Repr

/-- Input (src/input.rs). -/
inductive Input where
  | command (c : Command)
  | packet (p : ReceivedPacket)
  | timer
deriving DecidableEq, Repr

/-- State (src/router.rs lines 263-273). -/
inductive State where
  | initialized
  | backup (active_down_timer : Instant) (active_adver_interval : Interval)
  | active (adver_timer : Instant)
deriving DecidableEq, Repr

/-- Router (src/router.rs lines 12-16). -/
structure Router where
  mac_address : MacAddr
  parameters : Parameters
  state : State
deriving DecidableEq, Repr

/-- Router::new (src/router.rs lines 19-25). -/
def Router.new (p : Parameters) : Router := ⟨p.macAddress, p, .initialized⟩

/-- Router::adver_timer (src/router.rs lines 246-248). -/
def Router.adver_timer (r : Router) (now : Instant) : Instant :=
  Instant.addInterval now r.parameters.advertisement_interval

/-- Router::active_down_timer (src/router.rs lines 250-252). -/
def Router.active_down_timer (r : Router) (now : Instant) (i : Interval) : Instant :=
  Instant.addInterval now (r.parameters.active_down_interval i)

/-- Router::active_down_timer_for_shutdown (src/router.rs lines 254-260). -/
def Router.active_down_timer_for_shutdown (r : Router) (now : Instant) (i : Interval) : Instant :=
  Instant.addInterval now (r.parameters.skew_time i)

/-- Router::is_owner (src/router.rs lines 238-240). -/
def Router.is_owner (r : Router) : Bool :=
  match r.parameters.mode with
  | .owner => true
  | .backup _ => false

/-- Router::is_associated_address (src/router.rs lines 242-244), via
VirtualAddresses::contains (src/addresses.rs). -/
def Router.is_associated_address (r : Router) (ip : Ipv4) : Bool :=
  r.parameters.virtual_addresses.contains ip

/-- Router::should_accept_packets_for (src/router.rs lines 234-236). -/
def Router.should_accept_packets_for (r : Router) (target_ip : Ipv4) : Bool :=
  r.parameters.mode.should_accept && r.is_associated_address target_ip

/-- Router::is_greater_priority_than (src/router.rs lines 167-172). -/
def Router.is_greater_priority_than (r : Router) (sender_priority : Nat) : Bool :=
  match r.parameters.mode with
  | .owner => true
  | .backup bm => decide (bm.priority > sender_priority)

/-- Router::transition_to_active (src/router.rs lines 126-131); the iterator
starts at its `Default` state `Activate`. -/
def Router.transition_to_active (r : Router) (now : Instant) : Router × Actions :=
  ({ r with state := .active (r.adver_timer now) },
    .transitionToActive r.parameters .activate)

/-- Router::send_advertisment (src/router.rs lines 133-138). -/
def Router.send_advertisment (r : Router) (now : Instant) : Router × Actions :=
  ({ r with state := .active (r.adver_timer now) },
    .oneAction (some (.send (.advertisement r.parameters.priority
      r.parameters.advertisement_interval))))

/-- Router::startup (src/router.rs lines 112-124). -/
def Router.startup (r : Router) (now : Instant) : Router × Actions :=
  if r.is_owner then
    r.transition_to_active now
  else
    ({ r with state := (.backup (r.active_down_timer now r.parameters.advertisement_interval)
        r.parameters.advertisement_interval) }, .none)

/-- Router::deactivate_and_transition_to_backup (src/router.rs lines 174-184). -/
def Router.deactivate_and_transition_to_backup (r : Router) (now : Instant)
    (active_adver_interval : Interval) : Router × Actions :=
  ({ r with state := (.backup (r.active_down_timer now active_adver_interval)
      active_adver_interval) }, .oneAction (some .deactivate))

/-- Router::handle_active_advertisement (src/router.rs lines 140-165): the
matched pair `(Greater, _) | (Equal, Greater)` is the disjunction below. -/
def Router.handle_active_advertisement (r : Router) (now : Instant) (sender_ip : Ipv4)
    (sender_priority : Nat) (active_adver_interval : Interval) : Router × Actions :=
  if sender_priority > r.parameters.priority ∨
      (sender_priority = r.parameters.priority ∧ sender_ip > r.parameters.primary_ip) then
    r.deactivate_and_transition_to_backup now active_adver_interval
  else
    r.send_advertisment now

/-- Router::update_active_down_timer (src/router.rs lines 186-200). -/
def Router.update_active_down_timer (r : Router) (now : Instant) (active_priority : Nat)
    (active_adver_interval : Interval) : Router × Actions :=
  if !r.parameters.mode.should_preempt || !r.is_greater_priority_than active_priority then
    ({ r with state := (.backup (r.active_down_timer now active_adver_interval)
        active_adver_interval) }, .none)
  else
    (r, .none)

/-- Router::update_active_down_timer_for_shutdown (src/router.rs lines 202-212). -/
def Router.update_active_down_timer_for_shutdown (r : Router) (now : Instant)
    (active_adver_interval : Interval) : Router × Actions :=
  ({ r with state := (.backup (r.active_down_timer_for_shutdown now active_adver_interval)
      active_adver_interval) }, .none)

/-- Router::route_ip_packet (src/router.rs lines 214-222). -/
def Router.route_ip_packet (r : Router) (target_mac : MacAddr) (target_ip : Ipv4) :
    Router × Actions :=
  if target_mac ≠ r.mac_address then
    (r, .none)
  else if r.should_accept_packets_for target_ip then
    (r, .oneAction (some (.route .accept)))
  else
    (r, .oneAction (some (.route .forward)))

/-- Router::shutdown_active (src/router.rs lines 224-227); the iterator
starts at its `Default` state `Advertisment`. -/
def Router.shutdown_active (r : Router) : Router × Actions :=
  ({ r with state := .initialized }, .shutdownActive r.parameters .advertisment)

/-- Router::shutdown_backup (src/router.rs lines 229-232). -/
def Router.shutdown_backup (r : Router) : Router × Actions :=
  ({ r with state := .initialized }, .none)

/-- Router::handle_input (src/router.rs lines 41-110), arm for arm; the
source's match guards `Input::Timer if now >= *timer` become the inner
`if`s. -/
def Router.handle_input (r : Router) (now : Instant) (input : Input) : Router × Actions :=
  match r.state with
  | .initialized =>
      match input with
      | .command .startup => r.startup now
      | .command .shutdown => (r, .none)
      | .timer => (r, .none)
      | .packet (.shutdownAdvertisement _) => (r, .none)
      | .packet (.advertisement _ _ _) => (r, .none)
      | .packet (.requestARP _ _ _) => (r, .none)
      | .packet (.ip _ _) => (r, .oneAction (some (.route .reject)))
  | .active adver_timer =>
      match input with
      | .command .shutdown => r.shutdown_active
      | .command .startup => (r, .none)
      | .packet (.shutdownAdvertisement _) => r.send_advertisment now
      | .packet (.advertisement sender_ip priority max_advertise_interval) =>
          r.handle_active_advertisement now sender_ip priority max_advertise_interval
      | .timer =>
          if now ≥ adver_timer then r.send_advertisment now else (r, .none)
      | .packet (.requestARP sender_mac sender_ip target_ip) =>
          if r.is_associated_address target_ip then
            (r, .oneAction (some (.send (.replyARP r.mac_address target_ip sender_mac sender_ip))))
          else
            (r, .none)
      | .packet (.ip target_mac target_ip) => r.route_ip_packet target_mac target_ip
  | .backup active_down_timer _ =>
      match input with
      | .timer =>
          if now ≥ active_down_timer then r.transition_to_active now else (r, .none)
      | .command .startup => r.transition_to_active now
      | .command .shutdown => r.shutdown_backup
      | .packet (.shutdownAdvertisement max_advertise_interval) =>
          r.update_active_down_timer_for_shutdown now max_advertise_interval
      | .packet (.advertisement _ priority max_advertise_interval) =>
          r.update_active_down_timer now priority max_advertise_interval
      | .packet (.ip _ _) => (r, .oneAction (some (.route .reject)))
      | .packet (.requestARP _ _ _) => (r, .none)

/-! ### Characterization of the compound action streams -/

/-- The gratuitous-ARP action for one address. -/
def garpOf (p : Parameters) (a : Ipv4) : Action :=
  .send (.gratuitousARP p.macAddress a)

lemma toListFuel_tta_nextARP (p : Parameters) :
    ∀ (fuel offset : Nat), p.virtual_addresses.length % 256 - offset ≤ fuel →
      Actions.toListFuel fuel (.transitionToActive p (.nextARP offset)) =
        ((p.virtual_addresses.take (p.virtual_addresses.length % 256)).drop offset).map
          (garpOf p) := by
  set l := p.virtual_addresses with hl
  set m := l.length % 256 with hm
  have hmlt : m < 256 := Nat.mod_lt _ (by norm_num)
  have hmle : m ≤ l.length := Nat.mod_le _ _
  intro fuel
  induction fuel with
  | zero =>
      intro offset h
      have hmo : m ≤ offset := Nat.le_of_sub_eq_zero (Nat.le_zero.mp h)
      have : (l.take m).length ≤ offset := by
        rw [List.length_take]
        exact le_trans (min_le_left _ _) hmo
      rw [List.drop_eq_nil_of_le this]
      rfl
  | succ fuel ih =>
      intro offset h
      by_cases hoff : offset < m
      · have hguard : offset ≤ 255 ∧ offset < l.length % 256 :=
          ⟨by omega, by rw [← hm]; exact hoff⟩
        have hoffl : offset < l.length := lt_of_lt_of_le hoff hmle
        have hofft : offset < (l.take m).length := by
          rw [List.length_take]; exact lt_min hoff hoffl
        have step :
            Actions.toListFuel (fuel + 1) (.transitionToActive p (.nextARP offset)) =
              garpOf p (l.getD offset 0) ::
                Actions.toListFuel fuel (.transitionToActive p (.nextARP (offset + 1))) := by
          simp only [Actions.toListFuel, Actions.next, TransitionToActive.next_action,
            if_pos hguard]
          rfl
        rw [step, List.drop_eq_getElem_cons hofft, List.map_cons]
        have hget : (l.take m)[offset] = l[offset] := List.getElem_take _
        rw [hget, ← List.getD_eq_getElem l 0 hoffl]
        congr 1
        exact ih (offset + 1) (by omega)
      · have hguard : ¬(offset ≤ 255 ∧ offset < l.length % 256) := by
          rw [← hm]; intro hc; exact hoff hc.2
        have hnil : (l.take m).length ≤ offset := by
          rw [List.length_take]
          exact le_trans (min_le_left _ _) (le_of_not_lt hoff)
        rw [List.drop_eq_nil_of_le hnil]
        simp only [Actions.toListFuel, Actions.next, TransitionToActive.next_action,
          if_neg hguard]
        rfl

/-- The full TransitionToActive stream: `Activate`, the advertisement, then
one gratuitous ARP per address of the first `len % 256` addresses. -/
lemma tta_toList (p : Parameters) :
    Actions.toList (.transitionToActive p .activate) =
      .activate :: .send (.advertisement p.priority p.advertisement_interval) ::
        ((p.virtual_addresses.take (p.virtual_addresses.length % 256)).map (garpOf p)) := by
  show Actions.toListFuel (p.virtual_addresses.length + 3) _ = _
  have h1 :
      Actions.toListFuel (p.virtual_addresses.length + 3)
          (.transitionToActive p .activate) =
        .activate :: .send (.advertisement p.priority p.advertisement_interval) ::
          Actions.toListFuel (p.virtual_addresses.length + 1)
            (.transitionToActive p (.nextARP 0)) := rfl
  rw [h1, toListFuel_tta_nextARP p (p.virtual_addresses.length + 1) 0 (by omega)]
  rw [List.drop_zero]

/-- The ShutdownActive stream: shutdown advertisement (priority 0), then
`Deactivate`. -/
lemma sa_toList (p : Parameters) :
    Actions.toList (.shutdownActive p .advertisment) =
      [.send (.advertisement 0 p.advertisement_interval), .deactivate] := rfl

lemma oneAction_toList (a : Action) : Actions.toList (.oneAction (some a)) = [a] := rfl

lemma none_toList : Actions.toList .none = [] := rfl

/-! ### Concrete fixtures (mirroring the constants of the in-repo tests) -/

/-- BackupMode{primary_ip: 42.42.42.42, priority: 100, preempt, no accept}. -/
def cBackupMode : BackupMode := ⟨0x2A2A2A2A, 100, true, false⟩

/-- Backup-mode parameters: VRID 1, addresses [1.1.1.1, 2.2.2.2], 100 centis. -/
def cParams : Parameters := ⟨1, [0x01010101, 0x02020202], ⟨100⟩, .backup cBackupMode⟩

/-- Owner-mode parameters: VRID 1, addresses [1.1.1.1, 2.2.2.2], 100 centis. -/
def cOwnerParams : Parameters := ⟨1, [0x01010101, 0x02020202], ⟨100⟩, .owner⟩

/-- A Backup-mode router sitting in the Backup state, down-timer 1000 ms. -/
def cBackupRouter : Router := ⟨cParams.macAddress, cParams, .backup 1000 ⟨100⟩⟩

/-- An Owner-mode router sitting in the Backup state (reachable: an Active
Owner is demoted by a winning advertisement), down-timer 5000 ms. -/
def cOwnerBackupRouter : Router := ⟨cOwnerParams.macAddress, cOwnerParams, .backup 5000 ⟨100⟩⟩

/-- A Backup-mode router sitting in the Active state, adver-timer 500 ms. -/
def cActiveRouter : Router := ⟨cParams.macAddress, cParams, .active 500⟩

/-- An Owner-mode router sitting in the Active state, adver-timer 500 ms. -/
def cOwnerActiveRouter : Router := ⟨cOwnerParams.macAddress, cOwnerParams, .active 500⟩

/-- Owner-mode parameters with 256 virtual addresses. -/
def cParams256 : Parameters := ⟨1, List.replicate 256 7, ⟨100⟩, .owner⟩

/-! ### Claims -/

/-- Claim C1, counterexample: in the Backup state with
`now = 0 < active_down_timer = 1000`, the claim says `Startup` yields no
actions and no state change; the code (src/router.rs line 96) promotes
unconditionally, emitting a non-empty stream and changing the state. -/
theorem c1_counterexample :
    (0 : Instant) < 1000 ∧
      (cBackupRouter.handle_input 0 (.command .startup)).2.toList ≠ [] ∧
      (cBackupRouter.handle_input 0 (.command .startup)).1.state ≠ cBackupRouter.state := by
  decide

/-- Claim C1 (amended): for every router in the Backup state and every
instant `now`, `handle_input(now, Command(Startup))` promotes to Active
unconditionally — `adver_timer = now + advertisement_interval` and the
TransitionToActive sequence is emitted — regardless of how `now` compares
with `active_down_timer`. -/
theorem c1_backup_startup_promotes (r : Router) (now t : Instant) (i : Interval)
    (h : r.state = .backup t i) :
    r.handle_input now (.command .startup) =
      ({ r with state := .active (Instant.addInterval now r.parameters.advertisement_interval) },
        .transitionToActive r.parameters .activate) := by
  obtain ⟨m, p, st⟩ := r
  simp only at h
  subst h
  rfl

/-- Claim C1 witness: the amended theorem applied to the concrete Backup
router at `now = 0`. -/
theorem c1_witness :
    cBackupRouter.handle_input 0 (.command .startup) =
      ({ cBackupRouter with
          state := .active (Instant.addInterval 0 cBackupRouter.parameters.advertisement_interval) },
        .transitionToActive cBackupRouter.parameters .activate) :=
  c1_backup_startup_promotes cBackupRouter 0 1000 ⟨100⟩ rfl

/-- Claim C2, counterexample: in the Initialized state an `IP` packet — an
input other than `Command(Startup)` — yields the non-empty stream
`[Route(Reject)]` (src/router.rs line 54), not the empty stream the claim
asserts. -/
theorem c2_counterexample :
    (Input.packet (.ip cParams.macAddress 7) ≠ .command .startup) ∧
      ((Router.new cParams).handle_input 0 (.packet (.ip cParams.macAddress 7))).2.toList ≠ [] := by
  decide

/-- Claim C2 (amended): for every router in the Initialized state and every
input other than `Command(Startup)`, the state stays Initialized, and the
action stream is empty except for `IP` packets, which yield exactly
`[Route(Reject)]`. -/
theorem c2_initialized_ignores (r : Router) (now : Instant) (inp : Input)
    (hst : r.state = .initialized) (hinp : inp ≠ .command .startup) :
    (r.handle_input now inp).1.state = .initialized ∧
      (r.handle_input now inp).2.toList =
        (match inp with
          | .packet (.ip _ _) => [.route .reject]
          | _ => []) := by
  obtain ⟨m, p, st⟩ := r
  simp only at hst
  subst hst
  match inp with
  | .command .startup => exact absurd rfl hinp
  | .command .shutdown => exact ⟨rfl, rfl⟩
  | .timer => exact ⟨rfl, rfl⟩
  | .packet (.shutdownAdvertisement _) => exact ⟨rfl, rfl⟩
  | .packet (.advertisement _ _ _) => exact ⟨rfl, rfl⟩
  | .packet (.requestARP _ _ _) => exact ⟨rfl, rfl⟩
  | .packet (.ip _ _) => exact ⟨rfl, rfl⟩

/-- Claim C2 witness: the amended theorem applied to a freshly constructed
router on a `Timer` input. -/
theorem c2_witness :
    ((Router.new cParams).handle_input 0 .timer).1.state = .initialized ∧
      ((Router.new cParams).handle_input 0 .timer).2.toList =
        (match (Input.timer : Input) with
          | .packet (.ip _ _) => [.route .reject]
          | _ => []) :=
  c2_initialized_ignores (Router.new cParams) 0 .timer rfl (by decide)

/-- Claim C3 (confirmed): in the Active state, an
`Advertisement{sender_ip, priority, interval}` at `now` demotes to
`Backup{active_adver_interval = interval, active_down_timer = now +
active_down_interval(interval)}` with stream exactly `[Deactivate]` iff the
sender wins (`priority > own`, or equal priority and `sender_ip >
primary_ip` as unsigned network-order comparison); otherwise the router
stays Active with `adver_timer = now + advertisement_interval` and the
stream is exactly `[Send(Advertisement)]`. -/
theorem c3_active_advertisement (r : Router) (now t : Instant) (sip : Ipv4) (sp : Nat)
    (i : Interval) (hst : r.state = .active t) :
    ((sp > r.parameters.priority ∨
        (sp = r.parameters.priority ∧ sip > r.parameters.primary_ip)) →
      (r.handle_input now (.packet (.advertisement sip sp i))).1.state =
          .backup (Instant.addInterval now (r.parameters.active_down_interval i)) i ∧
        (r.handle_input now (.packet (.advertisement sip sp i))).2.toList = [.deactivate]) ∧
    (¬(sp > r.parameters.priority ∨
        (sp = r.parameters.priority ∧ sip > r.parameters.primary_ip)) →
      (r.handle_input now (.packet (.advertisement sip sp i))).1.state =
          .active (Instant.addInterval now r.parameters.advertisement_interval) ∧
        (r.handle_input now (.packet (.advertisement sip sp i))).2.toList =
          [.send (.advertisement r.parameters.priority r.parameters.advertisement_interval)]) := by
  obtain ⟨m, p, st⟩ := r
  simp only at hst
  subst hst
  constructor
  · intro hwin
    simp only [Router.handle_input, Router.handle_active_advertisement, if_pos hwin]
    exact ⟨rfl, rfl⟩
  · intro hlose
    simp only [Router.handle_input, Router.handle_active_advertisement, if_neg hlose]
    exact ⟨rfl, rfl⟩

/-- Claim C3 witness: the theorem applied to the concrete Active router
(priority 100, primary IP 1.1.1.1) receiving a priority-200 advertisement. -/
theorem c3_witness :
    ((200 > cActiveRouter.parameters.priority ∨
        (200 = cActiveRouter.parameters.priority ∧
          0x09090909 > cActiveRouter.parameters.primary_ip)) →
      (cActiveRouter.handle_input 0 (.packet (.advertisement 0x09090909 200 ⟨200⟩))).1.state =
          .backup (Instant.addInterval 0 (cActiveRouter.parameters.active_down_interval ⟨200⟩))
            ⟨200⟩ ∧
        (cActiveRouter.handle_input 0
            (.packet (.advertisement 0x09090909 200 ⟨200⟩))).2.toList = [.deactivate]) ∧
    (¬(200 > cActiveRouter.parameters.priority ∨
        (200 = cActiveRouter.parameters.priority ∧
          0x09090909 > cActiveRouter.parameters.primary_ip)) →
      (cActiveRouter.handle_input 0 (.packet (.advertisement 0x09090909 200 ⟨200⟩))).1.state =
          .active (Instant.addInterval 0 cActiveRouter.parameters.advertisement_interval) ∧
        (cActiveRouter.handle_input 0
            (.packet (.advertisement 0x09090909 200 ⟨200⟩))).2.toList =
          [.send (.advertisement cActiveRouter.parameters.priority
            cActiveRouter.parameters.advertisement_interval)]) :=
  c3_active_advertisement cActiveRouter 0 500 0x09090909 200 ⟨200⟩ rfl

set_option maxRecDepth 8192 in
/-- Claim C4, counterexample: with 256 virtual addresses the stream of the
Owner Startup transition to Active is `[Activate, Send(Advertisement)]` with
no gratuitous ARP at all — the iterator compares its offset against
`len as u8 = 0` (src/actions.rs line 113) — not the 258-action stream the
claim asserts. -/
theorem c4_counterexample :
    cParams256.virtual_addresses.length = 256 ∧
      ((Router.new cParams256).handle_input 0 (.command .startup)).2.toList ≠
        .activate ::
          .send (.advertisement cParams256.priority cParams256.advertisement_interval) ::
            (cParams256.virtual_addresses.map (garpOf cParams256)) := by
  decide

/-- Claim C4 (amended): for every parameter set with `k ≤ 255` virtual
addresses, each of the three transitions into Active — Owner Startup from
Initialized, Backup timer expiry, Backup Startup promotion — yields the
TransitionToActive stream, and that stream is exactly
`[Activate, Send(Advertisement), Send(GratuitousARP addr_1), ...,
Send(GratuitousARP addr_k)]`, the ARPs in configured order, each carrying
the virtual MAC as `sender_mac`. -/
theorem c4_transition_to_active_stream (r : Router) (now t : Instant) (i : Interval)
    (hlen : r.parameters.virtual_addresses.length ≤ 255) :
    (r.state = .initialized → r.parameters.mode = .owner →
      r.handle_input now (.command .startup) =
        ({ r with state := .active (Instant.addInterval now r.parameters.advertisement_interval) },
          .transitionToActive r.parameters .activate)) ∧
    (r.state = .backup t i → now ≥ t →
      r.handle_input now .timer =
        ({ r with state := .active (Instant.addInterval now r.parameters.advertisement_interval) },
          .transitionToActive r.parameters .activate)) ∧
    (r.state = .backup t i →
      r.handle_input now (.command .startup) =
        ({ r with state := .active (Instant.addInterval now r.parameters.advertisement_interval) },
          .transitionToActive r.parameters .activate)) ∧
    Actions.toList (.transitionToActive r.parameters .activate) =
      .activate ::
        .send (.advertisement r.parameters.priority r.parameters.advertisement_interval) ::
          (r.parameters.virtual_addresses.map (garpOf r.parameters)) := by
  obtain ⟨m, p, st⟩ := r
  refine ⟨?_, ?_, ?_, ?_⟩
  · intro h1 h2
    simp only at h1
    subst h1
    simp only at h2
    simp only [Router.handle_input, Router.startup, Router.is_owner, h2]
    rfl
  · intro h1 h2
    simp only at h1
    subst h1
    simp only [Router.handle_input, if_pos h2]
    rfl
  · intro h1
    simp only at h1
    subst h1
    rfl
  · simp only at hlen
    rw [tta_toList]
    have hmod : p.virtual_addresses.length % 256 = p.virtual_addresses.length :=
      Nat.mod_eq_of_lt (by omega)
    rw [hmod, List.take_length]

/-- Claim C4 witness: the amended theorem applied to the concrete Owner
router in Initialized on Startup (its two addresses satisfy the bound). -/
theorem c4_witness :
    ((Router.new cOwnerParams).state = .initialized →
      (Router.new cOwnerParams).parameters.mode = .owner →
      (Router.new cOwnerParams).handle_input 0 (.command .startup) =
        ({ Router.new cOwnerParams with
            state := .active (Instant.addInterval 0
              (Router.new cOwnerParams).parameters.advertisement_interval) },
          .transitionToActive (Router.new cOwnerParams).parameters .activate)) ∧
    ((Router.new cOwnerParams).state = .backup 9 ⟨100⟩ → 0 ≥ 9 →
      (Router.new cOwnerParams).handle_input 0 .timer =
        ({ Router.new cOwnerParams with
            state := .active (Instant.addInterval 0
              (Router.new cOwnerParams).parameters.advertisement_interval) },
          .transitionToActive (Router.new cOwnerParams).parameters .activate)) ∧
    ((Router.new cOwnerParams).state = .backup 9 ⟨100⟩ →
      (Router.new cOwnerParams).handle_input 0 (.command .startup) =
        ({ Router.new cOwnerParams with
            state := .active (Instant.addInterval 0
              (Router.new cOwnerParams).parameters.advertisement_interval) },
          .transitionToActive (Router.new cOwnerParams).parameters .activate)) ∧
    Actions.toList (.transitionToActive (Router.new cOwnerParams).parameters .activate) =
      .activate ::
        .send (.advertisement (Router.new cOwnerParams).parameters.priority
          (Router.new cOwnerParams).parameters.advertisement_interval) ::
          ((Router.new cOwnerParams).parameters.virtual_addresses.map
            (garpOf (Router.new cOwnerParams).parameters)) :=
  c4_transition_to_active_stream (Router.new cOwnerParams) 0 9 ⟨100⟩ (by decide)

/-- Claim C5 (confirmed): in the Active state, `Command(Shutdown)` moves the
router to Initialized and the stream is exactly
`[Send(ShutdownAdvertisement), Deactivate]`, the shutdown advertisement
carrying priority 0 and the configured advertisement interval. -/
theorem c5_active_shutdown (r : Router) (now t : Instant) (hst : r.state = .active t) :
    (r.handle_input now (.command .shutdown)).1.state = .initialized ∧
      (r.handle_input now (.command .shutdown)).2.toList =
        [.send (.advertisement 0 r.parameters.advertisement_interval), .deactivate] := by
  obtain ⟨m, p, st⟩ := r
  simp only at hst
  subst hst
  exact ⟨rfl, rfl⟩

/-- Claim C5 witness: the theorem applied to the concrete Active router. -/
theorem c5_witness :
    (cActiveRouter.handle_input 0 (.command .shutdown)).1.state = .initialized ∧
      (cActiveRouter.handle_input 0 (.command .shutdown)).2.toList =
        [.send (.advertisement 0 cActiveRouter.parameters.advertisement_interval),
          .deactivate] :=
  c5_active_shutdown cActiveRouter 0 500 rfl

/-- Backup-mode parameters with configured priority 1 (for the arithmetic
claim). -/
def cLowPriorityParams : Parameters := ⟨1, [5], ⟨100⟩, .backup ⟨2, 1, true, false⟩⟩

/-- Claim C6, counterexample: `Interval` is a `u16` (src/interval.rs), so the
multiplication `(256 - priority) * interval` wraps at 2^16: at priority 1
and interval 32768 centiseconds — well inside a 32-bit centisecond range —
`skew_time` returns 128, not `(255 * 32768) / 256 = 32640`. -/
theorem c6_counterexample :
    1 ≤ cLowPriorityParams.priority ∧ cLowPriorityParams.priority ≤ 255 ∧
      (cLowPriorityParams.skew_time ⟨32768⟩).val ≠
        ((256 - cLowPriorityParams.priority) * 32768) / 256 := by
  decide

/-- Claim C6 (amended): `skew_time` computes `((256 − priority) × i) / 256`
and `active_down_interval` computes `3·i + skew_time(i)` in 16-bit wrapping
unsigned arithmetic with truncating division; the results equal the exact
formulas whenever the intermediate values fit in 16 bits, but the
arithmetic is 16-bit, not overflow-free over a 32-bit centisecond range. -/
theorem c6_interval_arithmetic (p : Parameters) (i : Interval)
    (h1 : (256 - p.priority) * i.val < 65536)
    (h2 : 3 * i.val + ((256 - p.priority) * i.val) / 256 < 65536) :
    (p.skew_time i).val = ((256 - p.priority) * i.val) / 256 ∧
      (p.active_down_interval i).val =
        3 * i.val + ((256 - p.priority) * i.val) / 256 := by
  have hskew : (p.skew_time i).val = ((256 - p.priority) * i.val) / 256 := by
    simp only [Parameters.skew_time, Interval.scale, Interval.divBy]
    rw [Nat.mod_eq_of_lt h1]
  refine ⟨hskew, ?_⟩
  simp only [Parameters.active_down_interval, Interval.add, Interval.scale]
  rw [hskew, Nat.mod_eq_of_lt (show 3 * i.val < 65536 by omega), Nat.mod_eq_of_lt h2]

/-- Claim C6 witness: the amended theorem at priority 100 and interval 100
centiseconds, where nothing wraps. -/
theorem c6_witness :
    (cParams.skew_time ⟨100⟩).val = ((256 - cParams.priority) * 100) / 256 ∧
      (cParams.active_down_interval ⟨100⟩).val =
        3 * 100 + ((256 - cParams.priority) * 100) / 256 :=
  c6_interval_arithmetic cParams ⟨100⟩ (by decide) (by decide)

/-- Claim C7 (confirmed): in the Backup state, a
`ShutdownAdvertisement{interval = i}` at `now` sets
`Backup{active_adver_interval = i, active_down_timer = now + skew_time(i)}`
— the skew time only, not the full active-down interval — with an empty
action stream. -/
theorem c7_backup_shutdown_advertisement (r : Router) (now t : Instant) (j i : Interval)
    (hst : r.state = .backup t j) :
    (r.handle_input now (.packet (.shutdownAdvertisement i))).1.state =
        .backup (Instant.addInterval now (r.parameters.skew_time i)) i ∧
      (r.handle_input now (.packet (.shutdownAdvertisement i))).2.toList = [] := by
  obtain ⟨m, p, st⟩ := r
  simp only at hst
  subst hst
  exact ⟨rfl, rfl⟩

/-- Claim C7 witness: the theorem applied to the concrete Backup router with
a 100-centisecond shutdown advertisement. -/
theorem c7_witness :
    (cBackupRouter.handle_input 0 (.packet (.shutdownAdvertisement ⟨100⟩))).1.state =
        .backup (Instant.addInterval 0 (cBackupRouter.parameters.skew_time ⟨100⟩)) ⟨100⟩ ∧
      (cBackupRouter.handle_input 0 (.packet (.shutdownAdvertisement ⟨100⟩))).2.toList = [] :=
  c7_backup_shutdown_advertisement cBackupRouter 0 1000 ⟨100⟩ ⟨100⟩ rfl

/-- Claim C8, counterexample: an Owner-mode router in the Backup state
(reachable after a lost election) receiving an advertisement with priority
255 ≥ its own priority 255 keeps its old timers — `is_greater_priority_than`
is unconditionally true for Owner (src/router.rs line 169) — while the claim
demands the timer be adopted. -/
theorem c8_counterexample :
    (255 : Nat) ≥ cOwnerBackupRouter.parameters.priority ∧
      cOwnerBackupRouter.parameters.mode.should_preempt = true ∧
      (cOwnerBackupRouter.handle_input 0 (.packet (.advertisement 9 255 ⟨200⟩))).1.state ≠
        .backup
          (Instant.addInterval 0 (cOwnerBackupRouter.parameters.active_down_interval ⟨200⟩))
          ⟨200⟩ := by
  decide

/-- Claim C8 (amended): in the Backup state, an
`Advertisement{priority = p, interval = i}` at `now` leaves an empty action
stream, and: if preempt is disabled or the router does not rank strictly
above the sender (a Backup-mode router ranks above iff its configured
priority exceeds `p`; an Owner-mode router always ranks above), the next
state is `Backup{active_adver_interval = i, active_down_timer = now +
active_down_interval(i)}`; otherwise nothing changes. -/
theorem c8_backup_advertisement (r : Router) (now t : Instant) (j : Interval) (sip : Ipv4)
    (sp : Nat) (i : Interval) (hst : r.state = .backup t j) :
    (r.handle_input now (.packet (.advertisement sip sp i))).2.toList = [] ∧
    ((r.parameters.mode.should_preempt = false ∨ r.is_greater_priority_than sp = false) →
      (r.handle_input now (.packet (.advertisement sip sp i))).1.state =
        .backup (Instant.addInterval now (r.parameters.active_down_interval i)) i) ∧
    (r.parameters.mode.should_preempt = true → r.is_greater_priority_than sp = true →
      r.handle_input now (.packet (.advertisement sip sp i)) = (r, .none)) := by
  obtain ⟨m, p, st⟩ := r
  simp only at hst
  subst hst
  refine ⟨?_, ?_, ?_⟩
  · simp only [Router.handle_input, Router.update_active_down_timer]
    split <;> rfl
  · intro h
    rcases h with h | h <;>
      simp only [Router.handle_input, Router.update_active_down_timer, h,
        Bool.not_false, Bool.true_or, Bool.or_true, if_true] <;>
      rfl
  · intro h1 h2
    simp only [Router.handle_input, Router.update_active_down_timer, h1, h2,
      Bool.not_true, Bool.or_self, Bool.false_or, if_false]
    rfl

/-- Claim C8 witness: the amended theorem applied to the concrete
Backup-mode router (priority 100) receiving a priority-200 advertisement. -/
theorem c8_witness :
    (cBackupRouter.handle_input 0 (.packet (.advertisement 9 200 ⟨200⟩))).2.toList = [] ∧
    ((cBackupRouter.parameters.mode.should_preempt = false ∨
        cBackupRouter.is_greater_priority_than 200 = false) →
      (cBackupRouter.handle_input 0 (.packet (.advertisement 9 200 ⟨200⟩))).1.state =
        .backup (Instant.addInterval 0 (cBackupRouter.parameters.active_down_interval ⟨200⟩))
          ⟨200⟩) ∧
    (cBackupRouter.parameters.mode.should_preempt = true →
      cBackupRouter.is_greater_priority_than 200 = true →
      cBackupRouter.handle_input 0 (.packet (.advertisement 9 200 ⟨200⟩)) =
        (cBackupRouter, .none)) :=
  c8_backup_advertisement cBackupRouter 0 1000 ⟨100⟩ 9 200 ⟨200⟩ rfl

lemma accept_not_mem_tta (p : Parameters) :
    Action.route .accept ∉ Actions.toList (.transitionToActive p .activate) := by
  rw [tta_toList]
  intro h
  simp only [List.mem_cons] at h
  rcases h with h | h | h
  · exact Action.noConfusion h
  · exact Action.noConfusion h
  · rcases List.mem_map.mp h with ⟨x, _, hx⟩
    simp only [garpOf] at hx
    exact Action.noConfusion hx

lemma accept_not_mem_sa (p : Parameters) :
    Action.route .accept ∉ Actions.toList (.shutdownActive p .advertisment) := by
  rw [sa_toList]
  simp

/-- Claim C9 (confirmed): in the Active state, on `IP{target_mac,
target_ip}`: a non-matching MAC yields no action; a matching MAC yields
exactly `[Route(Accept)]` when `target_ip` is a virtual address and
`should_accept()` holds, else exactly `[Route(Forward)]`; and
`Route(Accept)` is never emitted under any other condition in any state. -/
theorem c9_route_accept (r : Router) (now t : Instant) (tm : MacAddr) (ti : Ipv4)
    (hst : r.state = .active t) (hmac : r.mac_address = r.parameters.macAddress) :
    (tm ≠ r.parameters.macAddress →
      (r.handle_input now (.packet (.ip tm ti))).2.toList = []) ∧
    (tm = r.parameters.macAddress → r.parameters.mode.should_accept = true →
      r.parameters.virtual_addresses.contains ti = true →
      (r.handle_input now (.packet (.ip tm ti))).2.toList = [.route .accept]) ∧
    (tm = r.parameters.macAddress →
      ¬(r.parameters.mode.should_accept = true ∧
          r.parameters.virtual_addresses.contains ti = true) →
      (r.handle_input now (.packet (.ip tm ti))).2.toList = [.route .forward]) ∧
    (∀ (r' : Router) (now' : Instant) (inp : Input),
      Action.route .accept ∈ (r'.handle_input now' inp).2.toList →
      ∃ t' tm' ti', r'.state = .active t' ∧ inp = .packet (.ip tm' ti') ∧
        tm' = r'.mac_address ∧ r'.parameters.mode.should_accept = true ∧
        r'.parameters.virtual_addresses.contains ti' = true) := by
  obtain ⟨m, p, st⟩ := r
  simp only at hst hmac
  subst hst
  subst hmac
  refine ⟨?_, ?_, ?_, ?_⟩
  · intro hne
    simp only [Router.handle_input, Router.route_ip_packet, if_pos hne]
    rfl
  · intro he hacc hcont
    have hsa : Router.should_accept_packets_for ⟨p.macAddress, p, .active t⟩ ti = true := by
      simp only [Router.should_accept_packets_for, Router.is_associated_address]
      rw [hacc, hcont]
      rfl
    simp only [Router.handle_input, Router.route_ip_packet, if_neg (not_not.mpr he), hsa,
      if_true]
    rfl
  · intro he hnot
    have hsa : Router.should_accept_packets_for ⟨p.macAddress, p, .active t⟩ ti = false := by
      simp only [Router.should_accept_packets_for, Router.is_associated_address]
      cases h1 : p.mode.should_accept <;>
        cases h2 : p.virtual_addresses.contains ti <;> simp_all
    simp only [Router.handle_input, Router.route_ip_packet, if_neg (not_not.mpr he), hsa,
      Bool.false_eq_true, if_false]
    rfl
  · intro r' now' inp hmem
    obtain ⟨m', p', st'⟩ := r'
    cases st' with
    | initialized =>
        cases inp with
        | command c =>
            cases c with
            | startup =>
                simp only [Router.handle_input, Router.startup] at hmem
                split at hmem
                · exact absurd hmem (accept_not_mem_tta p')
                · simp [Actions.toList, Actions.toListFuel] at hmem
            | shutdown =>
                simp [Router.handle_input, Actions.toList, Actions.toListFuel] at hmem
        | timer => simp [Router.handle_input, Actions.toList, Actions.toListFuel] at hmem
        | packet pk =>
            cases pk <;>
              simp [Router.handle_input, Actions.toList, Actions.toListFuel,
                Actions.next] at hmem
    | active t' =>
        cases inp with
        | command c =>
            cases c with
            | startup =>
                simp [Router.handle_input, Actions.toList, Actions.toListFuel] at hmem
            | shutdown =>
                simp only [Router.handle_input, Router.shutdown_active] at hmem
                exact absurd hmem (accept_not_mem_sa p')
        | timer =>
            simp only [Router.handle_input] at hmem
            split at hmem
            · simp [Router.send_advertisment, Actions.toList, Actions.toListFuel,
                Actions.next] at hmem
            · simp [Actions.toList, Actions.toListFuel] at hmem
        | packet pk =>
            cases pk with
            | shutdownAdvertisement i =>
                simp [Router.handle_input, Router.send_advertisment, Actions.toList,
                  Actions.toListFuel, Actions.next] at hmem
            | advertisement sip sp i =>
                simp only [Router.handle_input, Router.handle_active_advertisement] at hmem
                split at hmem <;>
                  simp [Router.deactivate_and_transition_to_backup, Router.send_advertisment,
                    Actions.toList, Actions.toListFuel, Actions.next] at hmem
            | requestARP smac sip tip =>
                simp only [Router.handle_input] at hmem
                split at hmem <;>
                  simp [Actions.toList, Actions.toListFuel, Actions.next] at hmem
            | ip tm' ti' =>
                simp only [Router.handle_input, Router.route_ip_packet] at hmem
                by_cases h1 : tm' ≠ m'
                · rw [if_pos h1] at hmem
                  simp [Actions.toList, Actions.toListFuel] at hmem
                · rw [if_neg h1] at hmem
                  by_cases h2 :
                      Router.should_accept_packets_for ⟨m', p', .active t'⟩ ti' = true
                  · have hsplit := h2
                    simp only [Router.should_accept_packets_for,
                      Router.is_associated_address, Bool.and_eq_true] at hsplit
                    exact ⟨t', tm', ti', rfl, rfl, not_not.mp h1, hsplit.1, hsplit.2⟩
                  · rw [if_neg h2] at hmem
                    simp [Actions.toList, Actions.toListFuel, Actions.next] at hmem
    | backup t' j' =>
        cases inp with
        | command c =>
            cases c with
            | startup =>
                simp only [Router.handle_input, Router.transition_to_active] at hmem
                exact absurd hmem (accept_not_mem_tta p')
            | shutdown =>
                simp [Router.handle_input, Router.shutdown_backup, Actions.toList,
                  Actions.toListFuel] at hmem
        | timer =>
            simp only [Router.handle_input] at hmem
            split at hmem
            · simp only [Router.transition_to_active] at hmem
              exact absurd hmem (accept_not_mem_tta p')
            · simp [Actions.toList, Actions.toListFuel] at hmem
        | packet pk =>
            cases pk with
            | shutdownAdvertisement i =>
                simp [Router.handle_input, Router.update_active_down_timer_for_shutdown,
                  Actions.toList, Actions.toListFuel] at hmem
            | advertisement sip sp i =>
                simp only [Router.handle_input, Router.update_active_down_timer] at hmem
                split at hmem <;> simp [Actions.toList, Actions.toListFuel] at hmem
            | requestARP smac sip tip =>
                simp [Router.handle_input, Actions.toList, Actions.toListFuel] at hmem
            | ip tm' ti' =>
                simp [Router.handle_input, Actions.toList, Actions.toListFuel,
                  Actions.next] at hmem

/-- Claim C9 witness: the theorem applied to the concrete Active Owner
router; the accept branch fires for virtual address 1.1.1.1. -/
theorem c9_witness :
    ((⟨0, 0, 0x5E, 0, 1, 1⟩ ≠ cOwnerActiveRouter.parameters.macAddress →
      (cOwnerActiveRouter.handle_input 0
          (.packet (.ip ⟨0, 0, 0x5E, 0, 1, 1⟩ 0x01010101))).2.toList = []) ∧
    (⟨0, 0, 0x5E, 0, 1, 1⟩ = cOwnerActiveRouter.parameters.macAddress →
      cOwnerActiveRouter.parameters.mode.should_accept = true →
      cOwnerActiveRouter.parameters.virtual_addresses.contains 0x01010101 = true →
      (cOwnerActiveRouter.handle_input 0
          (.packet (.ip ⟨0, 0, 0x5E, 0, 1, 1⟩ 0x01010101))).2.toList = [.route .accept]) ∧
    (⟨0, 0, 0x5E, 0, 1, 1⟩ = cOwnerActiveRouter.parameters.macAddress →
      ¬(cOwnerActiveRouter.parameters.mode.should_accept = true ∧
          cOwnerActiveRouter.parameters.virtual_addresses.contains 0x01010101 = true) →
      (cOwnerActiveRouter.handle_input 0
          (.packet (.ip ⟨0, 0, 0x5E, 0, 1, 1⟩ 0x01010101))).2.toList = [.route .forward]) ∧
    (∀ (r' : Router) (now' : Instant) (inp : Input),
      Action.route .accept ∈ (r'.handle_input now' inp).2.toList →
      ∃ t' tm' ti', r'.state = .active t' ∧ inp = .packet (.ip tm' ti') ∧
        tm' = r'.mac_address ∧ r'.parameters.mode.should_accept = true ∧
        r'.parameters.virtual_addresses.contains ti' = true)) :=
  c9_route_accept cOwnerActiveRouter 0 500 ⟨0, 0, 0x5E, 0, 1, 1⟩ 0x01010101 rfl rfl

/-- Claim C10 (confirmed): for every parameter set whose virtual-address
list has length `n`, the TransitionToActive stream contains exactly
`n % 256` gratuitous ARPs — the iterator compares its `u8` offset against
the list length cast to `u8` — so exactly `n` ARPs for `n ≤ 255` and zero
for `n = 256`. -/
theorem c10_arp_count (p : Parameters) :
    (Actions.toList (.transitionToActive p .activate)).countP
        (fun a => match a with
          | .send (.gratuitousARP _ _) => true
          | _ => false) =
      p.virtual_addresses.length % 256 := by
  rw [tta_toList]
  rw [List.countP_cons_of_neg _ _ (fun h => Bool.false_ne_true h),
    List.countP_cons_of_neg _ _ (fun h => Bool.false_ne_true h), List.countP_map]
  have hconst :
      ((fun a => match a with
          | Action.send (SendPacket.gratuitousARP _ _) => true
          | _ => false) ∘ garpOf p) = fun _ => true := by
    funext a
    rfl
  rw [hconst, List.countP_true, List.length_take,
    Nat.min_eq_left (Nat.mod_le _ _)]

end Vrrp
